import Mathlib

/-
Verification of the host-side bridge in misc/index.js of dwarf-to-json.

The bridge calls four imports of the wasm module: alloc_mem, free_mem,
convert_dwarf and memory.  We embed the module as an abstract semantics
over an explicit state (linear memory plus opaque allocator state), and
the bridge function convertDwarfToJSON as a Lean function that records
the calls it makes into the module (the trace) and either returns the
decoded output bytes or the JavaScript exception the run raises.
Module imports are modelled as total functions, so a run of the
embedding never models a wasm trap; claims about traps are out of scope
of the embedding and are excluded by the claims themselves.
-/

/-- State of the wasm module as seen by the bridge: the current byte size
of the linear memory (memory.buffer.byteLength), its contents by offset,
and an opaque counter standing for internal allocator state. -/
structure ModState where
  memSize : Nat
  mem : Nat → Nat
  aux : Nat

/-- Abstract semantics of the three function imports of the module.
Each is a total state transformer; alloc_mem also returns the offset. -/
structure ModuleSem where
  alloc_mem : ModState → Nat → ModState × Nat
  free_mem : ModState → Nat → ModState
  convert_dwarf : ModState → Nat → Nat → Nat → Nat → ModState

/-- Calls made by the bridge into the module, in order. -/
inductive Event where
  | alloc (size ptr : Nat)
  | free (ptr : Nat)
  | convertCall (inputPtr inputLen resultPtr lenFieldPtr : Nat)
deriving DecidableEq

/-- JavaScript exceptions the bridge body can raise: a RangeError from a
typed-array or DataView constructor whose region does not fit the
buffer, and a TypeError from reading .decode off an undefined value. -/
inductive JsError where
  | rangeError
  | typeError
deriving DecidableEq

/-- A byte of the linear memory (stored values are reduced mod 256, as a
Uint8Array element is). -/
def byteAt (mem : Nat → Nat) (i : Nat) : Nat := mem i % 256

/-- DataView.getUint32 with littleEndian = true: four bytes starting at
offset p, least significant first. -/
def readU32LE (mem : Nat → Nat) (p : Nat) : Nat :=
  byteAt mem p + 256 * byteAt mem (p + 1) + 65536 * byteAt mem (p + 2) +
    16777216 * byteAt mem (p + 3)

/-- The n bytes of memory starting at offset p. -/
def readBytes (mem : Nat → Nat) (p n : Nat) : List Nat :=
  (List.range n).map fun i => byteAt mem (p + i)

/-- Uint8Array.set: copy the given bytes into memory starting at offset p. -/
def writeBytes (st : ModState) (p : Nat) (bytes : List Nat) : ModState :=
  { st with mem := fun i =>
      if p ≤ i ∧ i < p + bytes.length then bytes.getD (i - p) 0 % 256 else st.mem i }

/-- The two-field result descriptor: output offset from bytes 0 to 3 and
output length from bytes 4 to 7 of the 12-byte region at rp, both read
as unsigned 32-bit little-endian integers. -/
def readDescriptor (mem : Nat → Nat) (rp : Nat) : Nat × Nat :=
  (readU32LE mem rp, readU32LE mem (rp + 4))

/-
Intermediate values of one call of convertDwarfToJSON, one definition
per line of the source, so that hypotheses and theorems can name them.
-/

/-- Line: const wasmPtr = alloc_mem(wasm.byteLength). -/
def inputAlloc (M : ModuleSem) (st0 : ModState) (wasm : List Nat) : ModState × Nat :=
  M.alloc_mem st0 wasm.length

/-- The offset returned by the first reserve (the source name wasmPtr). -/
def wasmPtr (M : ModuleSem) (st0 : ModState) (wasm : List Nat) : Nat :=
  (inputAlloc M st0 wasm).2

/-- Module state after the first reserve. -/
def stInputAlloc (M : ModuleSem) (st0 : ModState) (wasm : List Nat) : ModState :=
  (inputAlloc M st0 wasm).1

/-- Line: new Uint8Array(memory.buffer, wasmPtr, wasm.byteLength).set(...). -/
def stWritten (M : ModuleSem) (st0 : ModState) (wasm : List Nat) : ModState :=
  writeBytes (stInputAlloc M st0 wasm) (wasmPtr M st0 wasm) wasm

/-- Line: const resultPtr = alloc_mem(12). -/
def resultAlloc (M : ModuleSem) (st0 : ModState) (wasm : List Nat) : ModState × Nat :=
  M.alloc_mem (stWritten M st0 wasm) 12

/-- The offset returned by the second reserve (the source name resultPtr). -/
def resultPtr (M : ModuleSem) (st0 : ModState) (wasm : List Nat) : Nat :=
  (resultAlloc M st0 wasm).2

/-- Module state after the second reserve. -/
def stResultAlloc (M : ModuleSem) (st0 : ModState) (wasm : List Nat) : ModState :=
  (resultAlloc M st0 wasm).1

/-- Line: convert_dwarf(wasmPtr, wasm.byteLength, resultPtr, resultPtr + 4). -/
def stConverted (M : ModuleSem) (st0 : ModState) (wasm : List Nat) : ModState :=
  M.convert_dwarf (stResultAlloc M st0 wasm) (wasmPtr M st0 wasm) wasm.length
    (resultPtr M st0 wasm) (resultPtr M st0 wasm + 4)

/-- Line: free_mem(wasmPtr). -/
def stInputFreed (M : ModuleSem) (st0 : ModState) (wasm : List Nat) : ModState :=
  M.free_mem (stConverted M st0 wasm) (wasmPtr M st0 wasm)

/-- Line: const outputPtr = resultView.getUint32(0, true). -/
def outputPtr (M : ModuleSem) (st0 : ModState) (wasm : List Nat) : Nat :=
  readU32LE (stInputFreed M st0 wasm).mem (resultPtr M st0 wasm)

/-- Line: outputLen = resultView.getUint32(4, true). -/
def outputLen (M : ModuleSem) (st0 : ModState) (wasm : List Nat) : Nat :=
  readU32LE (stInputFreed M st0 wasm).mem (resultPtr M st0 wasm + 4)

/-- Line: free_mem(resultPtr). -/
def stResultFreed (M : ModuleSem) (st0 : ModState) (wasm : List Nat) : ModState :=
  M.free_mem (stInputFreed M st0 wasm) (resultPtr M st0 wasm)

/-- The bytes the output Uint8Array views, from the buffer as it is after
free_mem(resultPtr). -/
def outputBytes (M : ModuleSem) (st0 : ModState) (wasm : List Nat) : List Nat :=
  readBytes (stResultFreed M st0 wasm).mem (outputPtr M st0 wasm) (outputLen M st0 wasm)

/-- Line: free_mem(outputPtr). -/
def stOutputFreed (M : ModuleSem) (st0 : ModState) (wasm : List Nat) : ModState :=
  M.free_mem (stResultFreed M st0 wasm) (outputPtr M st0 wasm)

/-- What one call of convertDwarfToJSON produced: the calls made into the
module, the returned value or raised exception, the value of the
module-level utf8Decoder variable after the call, how many TextDecoder
objects the call constructed, and the final module state. -/
structure RunResult where
  trace : List Event
  outcome : Except JsError (List Nat)
  decoder : Option Nat
  decoderConstructions : Nat
  finalState : ModState

/-- The body of convertDwarfToJSON from misc/index.js, in source order.
utf8Decoder is the module-level decoder variable before the call (a
TextDecoder is modelled by a Nat identity); decodeImpl models
TextDecoder.decode of a decoder constructed as new TextDecoder with
label utf-8 and no options, which is total: in non-fatal mode it never
raises on malformed input.  The two if conditions are the bounds checks
the Uint8Array and DataView constructors perform (RangeError when the
region does not fit the current buffer).  When utf8Decoder is undefined
the guard if (utf8Decoder) skips construction and the member access
utf8Decoder.decode raises a TypeError before its argument is built;
when it is truthy the guard replaces it by a freshly constructed
decoder, then decoding proceeds. -/
def convertDwarfToJSON (M : ModuleSem) (decodeImpl : List Nat → List Nat)
    (utf8Decoder : Option Nat) (st0 : ModState) (wasm : List Nat) : RunResult :=
  if wasmPtr M st0 wasm + wasm.length ≤ (stInputAlloc M st0 wasm).memSize then
    if resultPtr M st0 wasm + 12 ≤ (stInputFreed M st0 wasm).memSize then
      match utf8Decoder with
      | none =>
        { trace := [Event.alloc wasm.length (wasmPtr M st0 wasm),
                    Event.alloc 12 (resultPtr M st0 wasm),
                    Event.convertCall (wasmPtr M st0 wasm) wasm.length
                      (resultPtr M st0 wasm) (resultPtr M st0 wasm + 4),
                    Event.free (wasmPtr M st0 wasm),
                    Event.free (resultPtr M st0 wasm)],
          outcome := Except.error JsError.typeError,
          decoder := none,
          decoderConstructions := 0,
          finalState := stResultFreed M st0 wasm }
      | some d =>
        if outputPtr M st0 wasm + outputLen M st0 wasm ≤ (stResultFreed M st0 wasm).memSize then
          { trace := [Event.alloc wasm.length (wasmPtr M st0 wasm),
                      Event.alloc 12 (resultPtr M st0 wasm),
                      Event.convertCall (wasmPtr M st0 wasm) wasm.length
                        (resultPtr M st0 wasm) (resultPtr M st0 wasm + 4),
                      Event.free (wasmPtr M st0 wasm),
                      Event.free (resultPtr M st0 wasm),
                      Event.free (outputPtr M st0 wasm)],
            outcome := Except.ok (decodeImpl (outputBytes M st0 wasm)),
            decoder := some (d + 1),
            decoderConstructions := 1,
            finalState := stOutputFreed M st0 wasm }
        else
          { trace := [Event.alloc wasm.length (wasmPtr M st0 wasm),
                      Event.alloc 12 (resultPtr M st0 wasm),
                      Event.convertCall (wasmPtr M st0 wasm) wasm.length
                        (resultPtr M st0 wasm) (resultPtr M st0 wasm + 4),
                      Event.free (wasmPtr M st0 wasm),
                      Event.free (resultPtr M st0 wasm)],
            outcome := Except.error JsError.rangeError,
            decoder := some (d + 1),
            decoderConstructions := 1,
            finalState := stResultFreed M st0 wasm }
    else
      { trace := [Event.alloc wasm.length (wasmPtr M st0 wasm),
                  Event.alloc 12 (resultPtr M st0 wasm),
                  Event.convertCall (wasmPtr M st0 wasm) wasm.length
                    (resultPtr M st0 wasm) (resultPtr M st0 wasm + 4),
                  Event.free (wasmPtr M st0 wasm)],
        outcome := Except.error JsError.rangeError,
        decoder := utf8Decoder,
        decoderConstructions := 0,
        finalState := stInputFreed M st0 wasm }
  else
    { trace := [Event.alloc wasm.length (wasmPtr M st0 wasm)],
      outcome := Except.error JsError.rangeError,
      decoder := utf8Decoder,
      decoderConstructions := 0,
      finalState := stInputAlloc M st0 wasm }

/-- True of the reserve events of a trace. -/
def isAllocEvent : Event → Bool
  | Event.alloc _ _ => true
  | _ => false

/-- True of the release events of a trace. -/
def isFreeEvent : Event → Bool
  | Event.free _ => true
  | _ => false

/-- True of the conversion entry point calls of a trace. -/
def isConvertEvent : Event → Bool
  | Event.convertCall _ _ _ _ => true
  | _ => false

/-- With the decoder variable undefined and both allocator-returned
regions in bounds, the call makes two reserves, one conversion call and
two releases, then raises a TypeError at the decode step. -/
theorem run_none_eq (M : ModuleSem) (decodeImpl : List Nat → List Nat)
    (st0 : ModState) (wasm : List Nat)
    (hIn : wasmPtr M st0 wasm + wasm.length ≤ (stInputAlloc M st0 wasm).memSize)
    (hDesc : resultPtr M st0 wasm + 12 ≤ (stInputFreed M st0 wasm).memSize) :
    convertDwarfToJSON M decodeImpl none st0 wasm =
      { trace := [Event.alloc wasm.length (wasmPtr M st0 wasm),
                  Event.alloc 12 (resultPtr M st0 wasm),
                  Event.convertCall (wasmPtr M st0 wasm) wasm.length
                    (resultPtr M st0 wasm) (resultPtr M st0 wasm + 4),
                  Event.free (wasmPtr M st0 wasm),
                  Event.free (resultPtr M st0 wasm)],
        outcome := Except.error JsError.typeError,
        decoder := none,
        decoderConstructions := 0,
        finalState := stResultFreed M st0 wasm } := by
  unfold convertDwarfToJSON
  rw [if_pos hIn, if_pos hDesc]

/-- With a truthy decoder variable and all three regions in bounds, the
call completes: two reserves, one conversion call, three releases, and
the decoded output bytes are returned. -/
theorem run_some_eq (M : ModuleSem) (decodeImpl : List Nat → List Nat) (d : Nat)
    (st0 : ModState) (wasm : List Nat)
    (hIn : wasmPtr M st0 wasm + wasm.length ≤ (stInputAlloc M st0 wasm).memSize)
    (hDesc : resultPtr M st0 wasm + 12 ≤ (stInputFreed M st0 wasm).memSize)
    (hOut : outputPtr M st0 wasm + outputLen M st0 wasm ≤ (stResultFreed M st0 wasm).memSize) :
    convertDwarfToJSON M decodeImpl (some d) st0 wasm =
      { trace := [Event.alloc wasm.length (wasmPtr M st0 wasm),
                  Event.alloc 12 (resultPtr M st0 wasm),
                  Event.convertCall (wasmPtr M st0 wasm) wasm.length
                    (resultPtr M st0 wasm) (resultPtr M st0 wasm + 4),
                  Event.free (wasmPtr M st0 wasm),
                  Event.free (resultPtr M st0 wasm),
                  Event.free (outputPtr M st0 wasm)],
        outcome := Except.ok (decodeImpl (outputBytes M st0 wasm)),
        decoder := some (d + 1),
        decoderConstructions := 1,
        finalState := stOutputFreed M st0 wasm } := by
  unfold convertDwarfToJSON
  rw [if_pos hIn, if_pos hDesc]
  exact if_pos hOut

/-- Model of one call to the conversion entry point: the count of
reserve, release and conversion calls in a trace, shared by several
statements below. -/
theorem run_calls_convert (M : ModuleSem) (decodeImpl : List Nat → List Nat)
    (dec : Option Nat) (st0 : ModState) (wasm : List Nat)
    (hIn : wasmPtr M st0 wasm + wasm.length ≤ (stInputAlloc M st0 wasm).memSize) :
    ((convertDwarfToJSON M decodeImpl dec st0 wasm).trace.countP isConvertEvent = 1) ∧
    Event.alloc wasm.length (wasmPtr M st0 wasm) ∈
      (convertDwarfToJSON M decodeImpl dec st0 wasm).trace ∧
    Event.alloc 12 (resultPtr M st0 wasm) ∈
      (convertDwarfToJSON M decodeImpl dec st0 wasm).trace ∧
    Event.convertCall (wasmPtr M st0 wasm) wasm.length (resultPtr M st0 wasm)
      (resultPtr M st0 wasm + 4) ∈ (convertDwarfToJSON M decodeImpl dec st0 wasm).trace := by
  unfold convertDwarfToJSON
  rw [if_pos hIn]
  by_cases hDesc : resultPtr M st0 wasm + 12 ≤ (stInputFreed M st0 wasm).memSize
  · rw [if_pos hDesc]
    cases dec with
    | none => exact ⟨rfl, by simp, by simp, by simp⟩
    | some d =>
      dsimp only
      by_cases hOut : outputPtr M st0 wasm + outputLen M st0 wasm ≤
          (stResultFreed M st0 wasm).memSize
      · rw [if_pos hOut]
        exact ⟨rfl, by simp, by simp, by simp⟩
      · rw [if_neg hOut]
        exact ⟨rfl, by simp, by simp, by simp⟩
  · rw [if_neg hDesc]
    exact ⟨rfl, by simp, by simp, by simp⟩

/-- A bump-allocator module with identity conversion, for concrete runs. -/
def bumpModule : ModuleSem :=
  { alloc_mem := fun st n => ({ st with aux := st.aux + n }, st.aux),
    free_mem := fun st _ => st,
    convert_dwarf := fun st _ _ _ _ => st }

/-- A 64-byte zero-filled linear memory with fresh allocator state. -/
def st64 : ModState := { memSize := 64, mem := fun _ => 0, aux := 0 }

/-- Claim C1: for every call that does not end in a module trap (module
imports are total here) and in which the allocator honours its contract
(both regions it returns lie inside the buffer), the number of release
calls in the trace equals the number of successful reserve calls, and
every region the bridge reserved is released: the bridge leaks none of
its own allocations on the paths it controls.  The decoder variable is
none, the only value it ever holds (it starts undefined and the guard
never constructs a decoder), so these are all reachable runs. -/
theorem alloc_release_symmetry (M : ModuleSem) (decodeImpl : List Nat → List Nat)
    (st0 : ModState) (wasm : List Nat)
    (hIn : wasmPtr M st0 wasm + wasm.length ≤ (stInputAlloc M st0 wasm).memSize)
    (hDesc : resultPtr M st0 wasm + 12 ≤ (stInputFreed M st0 wasm).memSize) :
    ((convertDwarfToJSON M decodeImpl none st0 wasm).trace.countP isFreeEvent =
      (convertDwarfToJSON M decodeImpl none st0 wasm).trace.countP isAllocEvent) ∧
    (∀ s p, Event.alloc s p ∈ (convertDwarfToJSON M decodeImpl none st0 wasm).trace →
      Event.free p ∈ (convertDwarfToJSON M decodeImpl none st0 wasm).trace) := by
  rw [run_none_eq M decodeImpl st0 wasm hIn hDesc]
  refine ⟨rfl, ?_⟩
  intro s p h
  simp only [List.mem_cons, List.not_mem_nil, or_false] at h
  rcases h with h | h | h | h | h <;> simp_all

/-- Witness for alloc_release_symmetry at a concrete module and input. -/
theorem alloc_release_symmetry_witness :
    ((convertDwarfToJSON bumpModule id none st64 [65]).trace.countP isFreeEvent =
      (convertDwarfToJSON bumpModule id none st64 [65]).trace.countP isAllocEvent) ∧
    Event.free 0 ∈ (convertDwarfToJSON bumpModule id none st64 [65]).trace :=
  ⟨(alloc_release_symmetry bumpModule id st64 [65] (by decide) (by decide)).1,
   (alloc_release_symmetry bumpModule id st64 [65] (by decide) (by decide)).2 1 0 (by decide)⟩

/-- Claim C2: whenever the input copy is in bounds, the conversion entry
point is invoked exactly once, with the input offset, the input byte
length, the descriptor offset, and the descriptor offset plus 4, in
that order. -/
theorem convert_invoked_once (M : ModuleSem) (decodeImpl : List Nat → List Nat)
    (dec : Option Nat) (st0 : ModState) (wasm : List Nat)
    (hIn : wasmPtr M st0 wasm + wasm.length ≤ (stInputAlloc M st0 wasm).memSize) :
    ((convertDwarfToJSON M decodeImpl dec st0 wasm).trace.countP isConvertEvent = 1) ∧
    Event.convertCall (wasmPtr M st0 wasm) wasm.length (resultPtr M st0 wasm)
      (resultPtr M st0 wasm + 4) ∈ (convertDwarfToJSON M decodeImpl dec st0 wasm).trace := by
  obtain ⟨h1, _, _, h4⟩ := run_calls_convert M decodeImpl dec st0 wasm hIn
  exact ⟨h1, h4⟩

/-- Witness for convert_invoked_once at a concrete module and input. -/
theorem convert_invoked_once_witness :
    ((convertDwarfToJSON bumpModule id none st64 [7, 8]).trace.countP isConvertEvent = 1) ∧
    Event.convertCall (wasmPtr bumpModule st64 [7, 8]) (List.length [7, 8])
      (resultPtr bumpModule st64 [7, 8]) (resultPtr bumpModule st64 [7, 8] + 4) ∈
      (convertDwarfToJSON bumpModule id none st64 [7, 8]).trace :=
  convert_invoked_once bumpModule id none st64 [7, 8] (by decide)

/-- Claim C8: the empty input is not rejected by the bridge: a region of
size 0 is reserved and the conversion entry point is called with input
length 0. -/
theorem empty_input_forwarded (M : ModuleSem) (decodeImpl : List Nat → List Nat)
    (dec : Option Nat) (st0 : ModState)
    (hIn : wasmPtr M st0 [] ≤ (stInputAlloc M st0 []).memSize) :
    Event.alloc 0 (wasmPtr M st0 []) ∈ (convertDwarfToJSON M decodeImpl dec st0 []).trace ∧
    ((convertDwarfToJSON M decodeImpl dec st0 []).trace.countP isConvertEvent = 1) ∧
    Event.convertCall (wasmPtr M st0 []) 0 (resultPtr M st0 [])
      (resultPtr M st0 [] + 4) ∈ (convertDwarfToJSON M decodeImpl dec st0 []).trace := by
  obtain ⟨h1, h2, _, h4⟩ := run_calls_convert M decodeImpl dec st0 [] (by simpa using hIn)
  exact ⟨by simpa using h2, h1, by simpa using h4⟩

/-- Witness for empty_input_forwarded at a concrete module. -/
theorem empty_input_forwarded_witness :
    Event.alloc 0 (wasmPtr bumpModule st64 []) ∈
      (convertDwarfToJSON bumpModule id none st64 []).trace ∧
    ((convertDwarfToJSON bumpModule id none st64 []).trace.countP isConvertEvent = 1) ∧
    Event.convertCall (wasmPtr bumpModule st64 []) 0 (resultPtr bumpModule st64 [])
      (resultPtr bumpModule st64 [] + 4) ∈
      (convertDwarfToJSON bumpModule id none st64 []).trace :=
  empty_input_forwarded bumpModule id none st64 (by decide)

/-- Claim C10: the decoder variable starts undefined and the guard only
assigns when it is already truthy, so on every run with the decoder
absent the call raises a TypeError at the decode step: no text is ever
returned, no TextDecoder is ever constructed, the variable stays
undefined, and the trace ends after the descriptor release, so the
free of the output region never executes and that region leaks. -/
theorem decoder_bug_no_text_output_leak (M : ModuleSem) (decodeImpl : List Nat → List Nat)
    (st0 : ModState) (wasm : List Nat)
    (hIn : wasmPtr M st0 wasm + wasm.length ≤ (stInputAlloc M st0 wasm).memSize)
    (hDesc : resultPtr M st0 wasm + 12 ≤ (stInputFreed M st0 wasm).memSize) :
    ((convertDwarfToJSON M decodeImpl none st0 wasm).outcome =
      Except.error JsError.typeError) ∧
    ((convertDwarfToJSON M decodeImpl none st0 wasm).trace =
      [Event.alloc wasm.length (wasmPtr M st0 wasm),
       Event.alloc 12 (resultPtr M st0 wasm),
       Event.convertCall (wasmPtr M st0 wasm) wasm.length (resultPtr M st0 wasm)
         (resultPtr M st0 wasm + 4),
       Event.free (wasmPtr M st0 wasm),
       Event.free (resultPtr M st0 wasm)]) ∧
    ((convertDwarfToJSON M decodeImpl none st0 wasm).decoder = none) ∧
    ((convertDwarfToJSON M decodeImpl none st0 wasm).decoderConstructions = 0) := by
  rw [run_none_eq M decodeImpl st0 wasm hIn hDesc]
  exact ⟨rfl, rfl, rfl, rfl⟩

/-- Witness for decoder_bug_no_text_output_leak at a concrete module. -/
theorem decoder_bug_no_text_output_leak_witness :
    ((convertDwarfToJSON bumpModule id none st64 [1, 2]).outcome =
      Except.error JsError.typeError) ∧
    ((convertDwarfToJSON bumpModule id none st64 [1, 2]).trace =
      [Event.alloc (List.length [1, 2]) (wasmPtr bumpModule st64 [1, 2]),
       Event.alloc 12 (resultPtr bumpModule st64 [1, 2]),
       Event.convertCall (wasmPtr bumpModule st64 [1, 2]) (List.length [1, 2])
         (resultPtr bumpModule st64 [1, 2]) (resultPtr bumpModule st64 [1, 2] + 4),
       Event.free (wasmPtr bumpModule st64 [1, 2]),
       Event.free (resultPtr bumpModule st64 [1, 2])]) ∧
    ((convertDwarfToJSON bumpModule id none st64 [1, 2]).decoder = none) ∧
    ((convertDwarfToJSON bumpModule id none st64 [1, 2]).decoderConstructions = 0) :=
  decoder_bug_no_text_output_leak bumpModule id st64 [1, 2] (by decide) (by decide)

/-- Claim C3: the bridge decodes the output offset from bytes 0 to 3 and
the output length from bytes 4 to 7 of the descriptor, each as an
unsigned 32-bit little-endian integer, and the decoded pair depends
only on those eight bytes: memories that agree there give the same
pair, so bytes 8 to 11 of the 12-byte region are never read. -/
theorem descriptor_read_fields (M : ModuleSem) (st0 : ModState) (wasm : List Nat) :
    ((outputPtr M st0 wasm, outputLen M st0 wasm) =
      readDescriptor (stInputFreed M st0 wasm).mem (resultPtr M st0 wasm)) ∧
    (outputPtr M st0 wasm =
      byteAt (stInputFreed M st0 wasm).mem (resultPtr M st0 wasm) +
      256 * byteAt (stInputFreed M st0 wasm).mem (resultPtr M st0 wasm + 1) +
      65536 * byteAt (stInputFreed M st0 wasm).mem (resultPtr M st0 wasm + 2) +
      16777216 * byteAt (stInputFreed M st0 wasm).mem (resultPtr M st0 wasm + 3)) ∧
    (outputLen M st0 wasm =
      byteAt (stInputFreed M st0 wasm).mem (resultPtr M st0 wasm + 4) +
      256 * byteAt (stInputFreed M st0 wasm).mem (resultPtr M st0 wasm + 5) +
      65536 * byteAt (stInputFreed M st0 wasm).mem (resultPtr M st0 wasm + 6) +
      16777216 * byteAt (stInputFreed M st0 wasm).mem (resultPtr M st0 wasm + 7)) ∧
    (∀ mem1 mem2 rp, (∀ i, i < 8 → mem1 (rp + i) = mem2 (rp + i)) →
      readDescriptor mem1 rp = readDescriptor mem2 rp) := by
  refine ⟨rfl, rfl, ?_, ?_⟩
  · have e5 : resultPtr M st0 wasm + 4 + 1 = resultPtr M st0 wasm + 5 := by omega
    have e6 : resultPtr M st0 wasm + 4 + 2 = resultPtr M st0 wasm + 6 := by omega
    have e7 : resultPtr M st0 wasm + 4 + 3 = resultPtr M st0 wasm + 7 := by omega
    simp [outputLen, readU32LE, e5, e6, e7]
  · intro mem1 mem2 rp h
    have h0 : mem1 rp = mem2 rp := by simpa using h 0 (by norm_num)
    have e5 : rp + 4 + 1 = rp + 5 := by omega
    have e6 : rp + 4 + 2 = rp + 6 := by omega
    have e7 : rp + 4 + 3 = rp + 7 := by omega
    simp [readDescriptor, readU32LE, byteAt, e5, e6, e7, h0,
      h 1 (by norm_num), h 2 (by norm_num), h 3 (by norm_num), h 4 (by norm_num),
      h 5 (by norm_num), h 6 (by norm_num), h 7 (by norm_num)]

/-- A memory whose every byte i holds i + 1. -/
def memLow : Nat → Nat := fun i => i + 1

/-- A memory agreeing with memLow on offsets below 8 and differing above. -/
def memHigh : Nat → Nat := fun i => if i < 8 then i + 1 else 200 + i

/-- Witness for descriptor_read_fields at a concrete module, input and a
concrete pair of memories that differ only from byte 8 on. -/
theorem descriptor_read_fields_witness :
    ((outputPtr bumpModule st64 [65], outputLen bumpModule st64 [65]) =
      readDescriptor (stInputFreed bumpModule st64 [65]).mem (resultPtr bumpModule st64 [65])) ∧
    readDescriptor memLow 0 = readDescriptor memHigh 0 :=
  ⟨(descriptor_read_fields bumpModule st64 [65]).1,
   (descriptor_read_fields bumpModule st64 [65]).2.2.2 memLow memHigh 0 (by decide)⟩

/-- A module whose allocator always returns offset 0, the null sentinel
named by the spec as the failure indicator, with identity conversion. -/
def allocZeroModule : ModuleSem :=
  { alloc_mem := fun st _ => (st, 0),
    free_mem := fun st _ => st,
    convert_dwarf := fun st _ _ _ _ => st }

/-- Claim C4, divergence witness: when the first reserve returns the
null offset 0, the bridge does not stop: the conversion entry point is
still invoked (exactly once, at offset 0), and the call ends in the
TypeError of the decode step, not in any allocation-failure result:
the code checks no allocator result at all. -/
theorem no_alloc_failure_check :
    ((convertDwarfToJSON allocZeroModule id none st64 [1, 2, 3]).trace.countP
      isConvertEvent = 1) ∧
    Event.convertCall 0 3 0 4 ∈
      (convertDwarfToJSON allocZeroModule id none st64 [1, 2, 3]).trace ∧
    ((convertDwarfToJSON allocZeroModule id none st64 [1, 2, 3]).outcome =
      Except.error JsError.typeError) := by
  exact ⟨rfl, by decide, rfl⟩

/-- The conversion routine writing a little-endian u32 value at offset p. -/
def writeU32LE (st : ModState) (p v : Nat) : ModState :=
  { st with mem := fun i =>
      if i = p then v % 256
      else if i = p + 1 then v / 256 % 256
      else if i = p + 2 then v / 65536 % 256
      else if i = p + 3 then v / 16777216 % 256
      else st.mem i }

/-- A module whose conversion writes a descriptor whose output length,
1000, addresses far past the 64-byte memory. -/
def oobModule : ModuleSem :=
  { alloc_mem := fun st n => ({ st with aux := st.aux + n }, st.aux),
    free_mem := fun st _ => st,
    convert_dwarf := fun st _ _ rp lp => writeU32LE (writeU32LE st rp 20) lp 1000 }

/-- Claim C5, divergence witness: with a descriptor decoding to an
out-of-bounds output length of 1000, the call raises the TypeError of
the undefined decoder, and even with a decoder present it would raise
the RangeError of the Uint8Array constructor; there is no typed
CorruptResult in the code and no bounds validation of its own, though
no byte past the buffer is read on either path. -/
theorem no_bounds_check_no_corrupt_result :
    (outputLen oobModule st64 [65] = 1000) ∧
    ((convertDwarfToJSON oobModule id none st64 [65]).outcome =
      Except.error JsError.typeError) ∧
    ((convertDwarfToJSON oobModule id (some 0) st64 [65]).outcome =
      Except.error JsError.rangeError) ∧
    Event.free 20 ∉ (convertDwarfToJSON oobModule id (some 0) st64 [65]).trace := by
  exact ⟨rfl, rfl, rfl, by decide⟩

/-- A module whose conversion writes a valid descriptor for a one-byte
output at offset 20 whose single byte is 128 (0x80), a lone
continuation byte, hence not valid UTF-8. -/
def loneContModule : ModuleSem :=
  { alloc_mem := fun st n => ({ st with aux := st.aux + n }, st.aux),
    free_mem := fun st _ => st,
    convert_dwarf := fun st _ _ rp lp =>
      let st1 := writeU32LE (writeU32LE st rp 20) lp 1
      { st1 with mem := fun i => if i = 20 then 128 else st1.mem i } }

/-- Claim C6, divergence witness: when the output is the lone
continuation byte 0x80, the call raises a TypeError (from the undefined
decoder, which in this code precedes every decode attempt), not a typed
DecodeError, and at that moment the input and descriptor regions have
been released but the output region has not: its release never
executes. -/
theorem invalid_utf8_no_decode_error :
    (outputBytes loneContModule st64 [65] = [128]) ∧
    ((convertDwarfToJSON loneContModule id none st64 [65]).outcome =
      Except.error JsError.typeError) ∧
    Event.free (wasmPtr loneContModule st64 [65]) ∈
      (convertDwarfToJSON loneContModule id none st64 [65]).trace ∧
    Event.free (resultPtr loneContModule st64 [65]) ∈
      (convertDwarfToJSON loneContModule id none st64 [65]).trace ∧
    Event.free (outputPtr loneContModule st64 [65]) ∉
      (convertDwarfToJSON loneContModule id none st64 [65]).trace := by
  exact ⟨rfl, rfl, by decide, by decide, by decide⟩

/-- Claim C7, divergence witness: the guard if (utf8Decoder) is
inverted.  On a call with the decoder variable absent, no TextDecoder
is constructed and the variable stays undefined; on a call with a
decoder already present, a fresh TextDecoder is constructed and
replaces it.  Both directions contradict construct-once-if-absent,
then-reuse. -/
theorem decoder_guard_inverted :
    ((convertDwarfToJSON bumpModule id none st64 [65]).decoder = none) ∧
    ((convertDwarfToJSON bumpModule id none st64 [65]).decoderConstructions = 0) ∧
    ((convertDwarfToJSON bumpModule id (some 7) st64 [65]).decoderConstructions = 1) ∧
    ((convertDwarfToJSON bumpModule id (some 7) st64 [65]).decoder = some 8) := by
  exact ⟨rfl, rfl, rfl, rfl⟩

/-- A module whose conversion writes a valid descriptor for the
two-byte output 104, 105 at offset 20. -/
def okModule : ModuleSem :=
  { alloc_mem := fun st n => ({ st with aux := st.aux + n }, st.aux),
    free_mem := fun st _ => st,
    convert_dwarf := fun st _ _ rp lp =>
      let st1 := writeU32LE (writeU32LE st rp 20) lp 2
      { st1 with mem := fun i => if i = 20 then 104 else if i = 21 then 105 else st1.mem i } }

/-- Claim C9 counterexample: a concrete call that runs to completion
(decoder variable truthy, all regions in bounds) whose trace releases
the input region (offset 0) first, immediately after the conversion
call, then the descriptor (offset 1), and the output region (offset
20) last, after decoding: the input region is not released last and
not released just before the decode, refuting the stated order. -/
theorem release_order_counterexample :
    ((convertDwarfToJSON okModule id (some 0) st64 [65]).outcome =
      Except.ok [104, 105]) ∧
    ((convertDwarfToJSON okModule id (some 0) st64 [65]).trace =
      [Event.alloc 1 0, Event.alloc 12 1, Event.convertCall 0 1 1 5,
       Event.free 0, Event.free 1, Event.free 20]) := by
  exact ⟨rfl, by decide⟩

/-- Claim C9 as amended: in every call that runs to completion, the
input region is released first among the three, immediately after the
invocation (as section 4.1 step 5 describes), the descriptor region is
released second, after its two fields are read, and the output region
is released last, after the bytes are decoded. -/
theorem release_order_input_first (M : ModuleSem) (decodeImpl : List Nat → List Nat)
    (d : Nat) (st0 : ModState) (wasm : List Nat)
    (hIn : wasmPtr M st0 wasm + wasm.length ≤ (stInputAlloc M st0 wasm).memSize)
    (hDesc : resultPtr M st0 wasm + 12 ≤ (stInputFreed M st0 wasm).memSize)
    (hOut : outputPtr M st0 wasm + outputLen M st0 wasm ≤ (stResultFreed M st0 wasm).memSize) :
    ((convertDwarfToJSON M decodeImpl (some d) st0 wasm).trace =
      [Event.alloc wasm.length (wasmPtr M st0 wasm),
       Event.alloc 12 (resultPtr M st0 wasm),
       Event.convertCall (wasmPtr M st0 wasm) wasm.length (resultPtr M st0 wasm)
         (resultPtr M st0 wasm + 4),
       Event.free (wasmPtr M st0 wasm),
       Event.free (resultPtr M st0 wasm),
       Event.free (outputPtr M st0 wasm)]) ∧
    ((convertDwarfToJSON M decodeImpl (some d) st0 wasm).outcome =
      Except.ok (decodeImpl (outputBytes M st0 wasm))) := by
  rw [run_some_eq M decodeImpl d st0 wasm hIn hDesc hOut]
  exact ⟨rfl, rfl⟩

/-- Witness for release_order_input_first at a concrete module and input. -/
theorem release_order_input_first_witness :
    ((convertDwarfToJSON okModule id (some 3) st64 [66]).trace =
      [Event.alloc 1 0, Event.alloc 12 1, Event.convertCall 0 1 1 5,
       Event.free 0, Event.free 1, Event.free 20]) ∧
    ((convertDwarfToJSON okModule id (some 3) st64 [66]).outcome =
      Except.ok [104, 105]) :=
  release_order_input_first okModule id 3 st64 [66] (by decide) (by decide) (by decide)
